import Mathlib

/-!
Verification of the news_project publishing portal's policy engine.

The definitions below are a shallow embedding of the Python/Django source:
* `models.py` — `Publisher`, `CustomUser`, `Article` and `CustomUser.save`;
* `views.py` — `create_article`, `edit_article`, `approve_article`,
  `manage_subscriptions`, `article_detail`;
* `api_views.py` — `ArticleViewSet.get_queryset`;
* `twitter_utils.py` — `send_tweet`.

Database rows become Lean structures; ORM querysets become list filters;
the per-request mutation performed by a view becomes a pure function from
the old row to the new row plus the user-facing message the view emits.
Timestamps are abstract `Nat` values passed in for `timezone.now()`.
External side effects that the claims do not touch (group assignment,
template rendering, the HTTP layer) are not modelled; the notification
hook is modelled by the boolean outcome of its underlying effect.
-/

/-- The three roles of `CustomUser.ROLE_CHOICES` in `models.py`. -/
inductive Role where
  | reader
  | journalist
  | editor
deriving DecidableEq, Repr

/-- A row of the `Publisher` model (`models.py`): primary key, optional
owner (a user id), and the `editors` / `journalists` many-to-many sets,
held as lists of user ids. -/
structure Publisher where
  pid : Nat
  owner : Option Nat
  editors : List Nat
  journalists : List Nat
deriving DecidableEq, Repr

/-- A row of the `CustomUser` model (`models.py`): primary key, role, and
the `subscribed_publishers` / `subscribed_journalists` many-to-many sets,
held as lists of publisher ids and user ids. -/
structure CustomUser where
  uid : Nat
  role : Role
  subscribed_publishers : List Nat
  subscribed_journalists : List Nat
deriving DecidableEq, Repr

/-- A row of the `Article` model (`models.py`).  `journalist` is the
author's user id; `publisher` embeds the related `Publisher` row (as
Django's FK attribute access does), or `none`; `approved_by` is the
approving editor's user id; `approved_at` and `created_at` are abstract
timestamps. -/
structure Article where
  aid : Nat
  title : String
  content : String
  journalist : Nat
  publisher : Option Publisher
  created_at : Nat
  is_approved : Bool
  approved_by : Option Nat
  approved_at : Option Nat
deriving DecidableEq, Repr

/-- The persistent store as far as the claims need it: the `Publisher`
and `Article` tables. -/
structure DB where
  publishers : List Publisher
  articles : List Article
deriving DecidableEq, Repr

/-- `Publisher.objects.filter(Q(owner=user) | Q(editors=user)).distinct()`
as computed in `views.py` (both in `approve_article` and in the editor
dashboard). -/
def publishersManagedBy (db : DB) (user : CustomUser) : List Publisher :=
  db.publishers.filter (fun p => p.owner == some user.uid || p.editors.contains user.uid)

/-- The per-article predicate of the reader branch of
`ArticleViewSet.get_queryset` (`api_views.py` lines 43-52):
`filter(is_approved=True).filter(Q(publisher__in=subscribed_publishers) |
Q(journalist__in=subscribed_journalists))`.  An article whose `publisher`
is NULL never matches `publisher__in` (SQL `IN` semantics). -/
def readerFeedMember (viewer : CustomUser) (a : Article) : Bool :=
  a.is_approved &&
    ((match a.publisher with
      | some p => viewer.subscribed_publishers.contains p.pid
      | none => false) ||
     viewer.subscribed_journalists.contains a.journalist)

/-- `ArticleViewSet.get_queryset` (`api_views.py` lines 31-56): readers
get the subscription-filtered approved articles, every other role gets
all approved articles.  The trailing `order_by` only permutes the result,
so the feed is modelled as the filtered list; the claims below are about
membership. -/
def article_api_queryset (db : DB) (viewer : CustomUser) : List Article :=
  if viewer.role = Role.reader then
    db.articles.filter (readerFeedMember viewer)
  else
    db.articles.filter (fun a => a.is_approved)

/-- The data carried by `ArticleForm` (`forms.py`): exactly the fields
`['title', 'content', 'publisher']`. -/
structure ArticleFormData where
  title : String
  content : String
  publisher : Option Publisher
deriving DecidableEq, Repr

/-- The user-facing outcome of `create_article` (`views.py` lines
211-248). -/
inductive CreateMsg where
  | onlyJournalists
  | submittedForApproval
  | independentPublished
deriving DecidableEq, Repr

/-- `create_article` (`views.py` lines 225-243), POST path with a valid
form: only journalists may create; the new article's `journalist` is the
requester; if `article.publisher` is set then `is_approved = False`
(pending), else `is_approved = True`.  `aid` and `now` stand for the
database-assigned primary key and `created_at`. -/
def create_article (user : CustomUser) (fd : ArticleFormData) (aid now : Nat) :
    Option Article × CreateMsg :=
  if user.role ≠ Role.journalist then
    (none, CreateMsg.onlyJournalists)
  else
    let base : Article :=
      { aid := aid, title := fd.title, content := fd.content,
        journalist := user.uid, publisher := fd.publisher, created_at := now,
        is_approved := false, approved_by := none, approved_at := none }
    match fd.publisher with
    | some _ => (some { base with is_approved := false }, CreateMsg.submittedForApproval)
    | none => (some { base with is_approved := true }, CreateMsg.independentPublished)

/-- The user-facing outcome of `edit_article` (`views.py` lines
251-282). -/
inductive EditMsg where
  | permissionDenied
  | updated
deriving DecidableEq, Repr

/-- `edit_article` (`views.py` lines 265-278), POST path with a valid
form: denied unless the requester is the article's journalist or has role
editor; on success the form writes exactly the `ArticleForm` fields
(`title`, `content`, `publisher`) onto the row. -/
def edit_article (user : CustomUser) (a : Article) (fd : ArticleFormData) :
    Article × EditMsg :=
  if user.uid ≠ a.journalist ∧ user.role ≠ Role.editor then
    (a, EditMsg.permissionDenied)
  else
    ({ a with title := fd.title, content := fd.content, publisher := fd.publisher },
     EditMsg.updated)

/-- `send_tweet` (`twitter_utils.py` lines 7-31): the body returns `True`;
any exception from the underlying effect is caught inside the function and
turned into `False`.  `hookFails` says whether that effect raises, so the
function is total: it never throws past its boundary. -/
def send_tweet (hookFails : Bool) (_a : Article) : Bool :=
  if hookFails then false else true

/-- The user-facing outcome of `approve_article` (`views.py` lines
406-449). -/
inductive ApproveMsg where
  | permissionDeniedRole
  | permissionDeniedPublisher
  | approvedAndTweeted
  | approvedTweetFailed
deriving DecidableEq, Repr

/-- The publisher-scoping guard of `approve_article` (`views.py` lines
429-432): deny when `article.publisher` is set and the requester is not
in its `editors`, is not its `owner`, and the publisher is not among
`publishersManagedBy` (the source keeps this last, redundant clause). -/
def approve_denied (db : DB) (user : CustomUser) (a : Article) : Bool :=
  match a.publisher with
  | some pub =>
      !(pub.editors.contains user.uid) &&
      !(pub.owner == some user.uid) &&
      !((publishersManagedBy db user).contains pub)
  | none => false

/-- `approve_article` (`views.py` lines 421-447), POST path: role check,
publisher-membership check, then `is_approved = True`,
`approved_by = request.user`, `approved_at = timezone.now()` are saved,
and only afterwards `send_tweet` runs; its boolean decides between the
success and the warning message, never the saved state. -/
def approve_article (db : DB) (user : CustomUser) (a : Article)
    (hookFails : Bool) (now : Nat) : Article × ApproveMsg :=
  if user.role ≠ Role.editor then
    (a, ApproveMsg.permissionDeniedRole)
  else if approve_denied db user a then
    (a, ApproveMsg.permissionDeniedPublisher)
  else
    let a' : Article :=
      { a with is_approved := true, approved_by := some user.uid,
               approved_at := some now }
    if send_tweet hookFails a' then
      (a', ApproveMsg.approvedAndTweeted)
    else
      (a', ApproveMsg.approvedTweetFailed)

/-- The user-facing outcome of `manage_subscriptions` (`views.py` lines
452-489). -/
inductive SubscribeMsg where
  | onlyReaders
  | updated
deriving DecidableEq, Repr

/-- `manage_subscriptions` (`views.py` lines 465-480), POST path: only
readers may manage subscriptions; `subscribed_publishers.set(...)` and
`subscribed_journalists.set(...)` replace both sets with the posted id
lists. -/
def manage_subscriptions (user : CustomUser) (pubs jours : List Nat) :
    CustomUser × SubscribeMsg :=
  if user.role ≠ Role.reader then
    (user, SubscribeMsg.onlyReaders)
  else
    ({ user with subscribed_publishers := pubs, subscribed_journalists := jours },
     SubscribeMsg.updated)

/-- The access guard of `article_detail` (`views.py` lines 506-512):
deny when the article is unapproved and the requester is neither
`article.journalist` nor `article.approved_by` (the Python membership
test `request.user in [article.journalist, article.approved_by]`). -/
def article_detail_allowed (user : CustomUser) (a : Article) : Bool :=
  !(!a.is_approved && !(user.uid == a.journalist || some user.uid == a.approved_by))

/-- `CustomUser.save` on a freshly created row (`models.py` lines
97-118): after the base save, a journalist's `subscribed_publishers` and
`subscribed_journalists` are cleared, whatever the caller tried to store
in them.  The role-group assignment it also performs is an external
permission-subsystem effect outside these claims. -/
def createUser (uid : Nat) (role : Role) (pubs jours : List Nat) : CustomUser :=
  let u : CustomUser :=
    { uid := uid, role := role, subscribed_publishers := pubs,
      subscribed_journalists := jours }
  if role = Role.journalist then
    { u with subscribed_publishers := [], subscribed_journalists := [] }
  else
    u

/-! ### Concrete fixtures used by the witnesses -/

/-- A publisher owned by editor 10, with editors 10 and 11. -/
def pubA : Publisher := { pid := 1, owner := some 10, editors := [10, 11], journalists := [20] }

/-- A second publisher, owned by editor 12, unrelated to `pubA`. -/
def pubB : Publisher := { pid := 2, owner := some 12, editors := [12], journalists := [] }

/-- A reader subscribed to publisher 1 and journalist 20. -/
def reader30 : CustomUser :=
  { uid := 30, role := Role.reader, subscribed_publishers := [1], subscribed_journalists := [20] }

/-- An editor of `pubA`. -/
def editor11 : CustomUser :=
  { uid := 11, role := Role.editor, subscribed_publishers := [], subscribed_journalists := [] }

/-- An editor of `pubB` only: unrelated to `pubA`. -/
def editor12 : CustomUser :=
  { uid := 12, role := Role.editor, subscribed_publishers := [], subscribed_journalists := [] }

/-- The journalist authoring the sample articles. -/
def journalist20 : CustomUser :=
  { uid := 20, role := Role.journalist, subscribed_publishers := [], subscribed_journalists := [] }

/-- A pending article submitted to `pubA` by journalist 20. -/
def artP : Article :=
  { aid := 100, title := "p", content := "c", journalist := 20, publisher := some pubA,
    created_at := 5, is_approved := false, approved_by := none, approved_at := none }

/-- An independent article (no publisher) by journalist 20. -/
def artI : Article :=
  { aid := 101, title := "i", content := "d", journalist := 20, publisher := none,
    created_at := 6, is_approved := true, approved_by := none, approved_at := none }

/-- The sample database holding both publishers and both articles. -/
def db0 : DB := { publishers := [pubA, pubB], articles := [artP, artI] }

/-- Sample form data carrying a publisher. -/
def fdP : ArticleFormData := { title := "t", content := "b", publisher := some pubA }

/-- Sample form data without a publisher. -/
def fdI : ArticleFormData := { title := "u", content := "e", publisher := none }

/-! ### C1: reader feed membership -/

/-- C1: for every viewer with role reader, the article feed
(`ArticleViewSet.get_queryset`) contains an article A iff A.is_approved
is true and (A.publisher is among the reader's subscribed publishers or
A.journalist is among the reader's subscribed journalists); unapproved or
unsubscribed articles never appear, regardless of authorship. -/
theorem reader_feed_mem_iff (db : DB) (viewer : CustomUser) (a : Article)
    (hrole : viewer.role = Role.reader) (ha : a ∈ db.articles) :
    a ∈ article_api_queryset db viewer ↔
      (a.is_approved = true ∧
        ((∃ p, a.publisher = some p ∧ p.pid ∈ viewer.subscribed_publishers) ∨
         a.journalist ∈ viewer.subscribed_journalists)) := by
  simp only [article_api_queryset, hrole, if_pos rfl, List.mem_filter, ha, true_and,
    readerFeedMember, Bool.and_eq_true, Bool.or_eq_true]
  cases hp : a.publisher with
  | none => simp [readerFeedMember, List.contains, hp, ha]
  | some p => simp [readerFeedMember, List.contains, hp, ha]

/-- Witness for C1: in the sample database the independent approved
article by the followed journalist 20 is in reader 30's feed. -/
theorem reader_feed_mem_iff_witness : artI ∈ article_api_queryset db0 reader30 :=
  (reader_feed_mem_iff db0 reader30 artI rfl (by decide)).mpr
    ⟨rfl, Or.inr (by decide)⟩

/-! ### C4: initial approval state at creation -/

/-- C4: when a journalist creates an article, a stored article with a
publisher set has is_approved = false (pending approval), and one without
a publisher has is_approved = true (independently published). -/
theorem create_article_initial_approval (user : CustomUser) (fd : ArticleFormData)
    (aid now : Nat) (hrole : user.role = Role.journalist) :
    (∀ pub, fd.publisher = some pub →
      (create_article user fd aid now).1.map Article.is_approved = some false) ∧
    (fd.publisher = none →
      (create_article user fd aid now).1.map Article.is_approved = some true) := by
  constructor
  · intro pub hp
    simp [create_article, hrole, hp]
  · intro hp
    simp [create_article, hrole, hp]

/-- Witness for C4: journalist 20 creating with publisher `pubA` gets a
pending article; creating without a publisher gets an approved one. -/
theorem create_article_initial_approval_witness :
    (create_article journalist20 fdP 200 7).1.map Article.is_approved = some false ∧
    (create_article journalist20 fdI 201 7).1.map Article.is_approved = some true :=
  ⟨(create_article_initial_approval journalist20 fdP 200 7 rfl).1 pubA rfl,
   (create_article_initial_approval journalist20 fdI 201 7 rfl).2 rfl⟩

/-! ### C5: detail view of an unapproved article -/

/-- C5: when fetching a single article by id, an unapproved article is
visible exactly to its author and to its approver; every other
authenticated viewer is denied. -/
theorem article_detail_unapproved_access (user : CustomUser) (a : Article)
    (h : a.is_approved = false) :
    article_detail_allowed user a = true ↔
      (user.uid = a.journalist ∨ a.approved_by = some user.uid) := by
  simp [article_detail_allowed, h]
  constructor
  · rintro (h1 | h2)
    · exact Or.inl h1
    · exact Or.inr h2.symm
  · rintro (h1 | h2)
    · exact Or.inl h1
    · exact Or.inr h2.symm

/-- Witness for C5: the author sees the pending article `artP`, and
reader 30 (neither author nor approver) is denied. -/
theorem article_detail_unapproved_access_witness :
    article_detail_allowed journalist20 artP = true ∧
    article_detail_allowed reader30 artP = false :=
  ⟨(article_detail_unapproved_access journalist20 artP rfl).mpr (Or.inl rfl),
   by decide⟩

/-! ### C6: subscriptions are replaced, not merged -/

/-- C6: `manage_subscriptions` replaces the reader's whole publisher and
journalist subscription sets with the posted sets — after two successive
calls the subscriptions equal exactly the latest sets, never a union —
and the operation requires role reader. -/
theorem manage_subscriptions_replaces :
    (∀ (user : CustomUser) (p1 j1 p2 j2 : List Nat), user.role = Role.reader →
      ((manage_subscriptions (manage_subscriptions user p1 j1).1 p2 j2).1.subscribed_publishers = p2 ∧
       (manage_subscriptions (manage_subscriptions user p1 j1).1 p2 j2).1.subscribed_journalists = j2)) ∧
    (∀ (user : CustomUser) (p j : List Nat), user.role ≠ Role.reader →
      manage_subscriptions user p j = (user, SubscribeMsg.onlyReaders)) := by
  constructor
  · intro user p1 j1 p2 j2 hrole
    simp [manage_subscriptions, hrole]
  · intro user p j hrole
    simp [manage_subscriptions, hrole]

/-- Witness for C6: reader 30 subscribing to set {1} then to set {2}
ends with exactly {2}; journalist 20 cannot subscribe at all. -/
theorem manage_subscriptions_replaces_witness :
    ((manage_subscriptions (manage_subscriptions reader30 [1] []).1 [2] [20]).1.subscribed_publishers = [2] ∧
     (manage_subscriptions (manage_subscriptions reader30 [1] []).1 [2] [20]).1.subscribed_journalists = [20]) ∧
    manage_subscriptions journalist20 [1] [] = (journalist20, SubscribeMsg.onlyReaders) :=
  ⟨manage_subscriptions_replaces.1 reader30 [1] [] [2] [20] rfl,
   manage_subscriptions_replaces.2 journalist20 [1] [] (by decide)⟩

/-! ### C7: journalists are created with empty subscription sets -/

/-- C7: creating a user with role journalist always yields empty
subscribed_publishers and subscribed_journalists, even if the caller
attempts to set them at creation. -/
theorem createUser_journalist_clears_subs (uid : Nat) (pubs jours : List Nat) :
    (createUser uid Role.journalist pubs jours).subscribed_publishers = [] ∧
    (createUser uid Role.journalist pubs jours).subscribed_journalists = [] := by
  simp [createUser]

/-! ### C2, C3, C8, C9, C10: the approval workflow -/

/-- A user who is neither in a publisher's `editors` nor its `owner` never
appears as managing that publisher: the fourth clause of the guard in
`approve_article` is redundant given the first three. -/
theorem managedBy_not_contains (db : DB) (user : CustomUser) (pub : Publisher)
    (h1 : user.uid ∉ pub.editors) (h2 : pub.owner ≠ some user.uid) :
    (publishersManagedBy db user).contains pub = false := by
  simp only [List.contains, List.elem_eq_mem, decide_eq_false_iff_not]
  intro hmem
  have hpred := (List.mem_filter.mp hmem).2
  simp [List.contains, h1, h2] at hpred

/-- C2: `approve_article` fails with a permission error and leaves the
article unchanged whenever the requester's role is not editor; and for an
article whose publisher is set, it fails whenever the requester is an
editor who is neither the owner nor in the editors set of that
publisher. -/
theorem approve_article_permission :
    (∀ (db : DB) (user : CustomUser) (a : Article) (hf : Bool) (now : Nat),
      user.role ≠ Role.editor →
      approve_article db user a hf now = (a, ApproveMsg.permissionDeniedRole)) ∧
    (∀ (db : DB) (user : CustomUser) (a : Article) (hf : Bool) (now : Nat)
      (pub : Publisher),
      a.publisher = some pub → user.role = Role.editor →
      user.uid ∉ pub.editors → pub.owner ≠ some user.uid →
      approve_article db user a hf now = (a, ApproveMsg.permissionDeniedPublisher)) := by
  constructor
  · intro db user a hf now hrole
    simp [approve_article, hrole]
  · intro db user a hf now pub hpub hrole h1 h2
    have hc1 : pub.editors.contains user.uid = false := by
      simp only [List.contains, List.elem_eq_mem, decide_eq_false_iff_not]
      exact h1
    have hc2 : (pub.owner == some user.uid) = false := by
      simp only [beq_eq_false_iff_ne, ne_eq]
      exact h2
    have hc3 := managedBy_not_contains db user pub h1 h2
    have hden : approve_denied db user a = true := by
      simp only [approve_denied, hpub]
      rw [hc1, hc2, hc3]
      rfl
    simp [approve_article, hrole, hden]

/-- Witness for C2: reader 30 is rejected by the role check, and editor
12 — who runs publisher B but is no member of `pubA` — is rejected when
approving `artP`, which belongs to `pubA`; the article is unchanged. -/
theorem approve_article_permission_witness :
    approve_article db0 reader30 artP false 3 = (artP, ApproveMsg.permissionDeniedRole) ∧
    approve_article db0 editor12 artP false 3 = (artP, ApproveMsg.permissionDeniedPublisher) :=
  ⟨approve_article_permission.1 db0 reader30 artP false 3 (by decide),
   approve_article_permission.2 db0 editor12 artP false 3 pubA rfl rfl (by decide) (by decide)⟩

/-- C3: approval is one-way.  A successful approve sets `is_approved`,
`approved_by` and `approved_at` together; neither `approve_article` nor
`edit_article` ever turns `is_approved` back to false, so a second
approve of an already-approved article leaves the state approved, while
the second call's permission check still applies (a non-editor caller is
rejected even on an approved article). -/
theorem approve_one_way :
    (∀ (db : DB) (user : CustomUser) (a : Article) (hf : Bool) (now : Nat),
      user.role = Role.editor → approve_denied db user a = false →
      ((approve_article db user a hf now).1.is_approved = true ∧
       (approve_article db user a hf now).1.approved_by = some user.uid ∧
       (approve_article db user a hf now).1.approved_at = some now)) ∧
    (∀ (db : DB) (user : CustomUser) (a : Article) (hf : Bool) (now : Nat),
      a.is_approved = true → (approve_article db user a hf now).1.is_approved = true) ∧
    (∀ (user : CustomUser) (a : Article) (fd : ArticleFormData),
      (edit_article user a fd).1.is_approved = a.is_approved) ∧
    (∀ (db : DB) (user : CustomUser) (a : Article) (hf : Bool) (now : Nat),
      a.is_approved = true → user.role ≠ Role.editor →
      approve_article db user a hf now = (a, ApproveMsg.permissionDeniedRole)) := by
  refine ⟨?_, ?_, ?_, ?_⟩
  · intro db user a hf now hrole hden
    cases hf <;> simp [approve_article, hrole, hden, send_tweet]
  · intro db user a hf now happ
    by_cases hrole : user.role = Role.editor
    · by_cases hden : approve_denied db user a
      · simp [approve_article, hrole, hden, happ]
      · cases hf <;> simp [approve_article, hrole, hden, send_tweet]
    · simp [approve_article, hrole, happ]
  · intro user a fd
    by_cases h : user.uid ≠ a.journalist ∧ user.role ≠ Role.editor
    · simp [edit_article, h]
    · simp [edit_article, h]
  · intro db user a hf now _ hrole
    simp [approve_article, hrole]

/-- Witness for C3: editor 11 approves `artP` (all three fields set);
re-running approve on the already-approved result keeps it approved, and
a reader's second call is rejected while the state stays approved. -/
theorem approve_one_way_witness :
    ((approve_article db0 editor11 artP false 3).1.is_approved = true ∧
     (approve_article db0 editor11 artP false 3).1.approved_by = some 11 ∧
     (approve_article db0 editor11 artP false 3).1.approved_at = some 3) ∧
    (approve_article db0 reader30 artI false 4).1.is_approved = true ∧
    (edit_article journalist20 artI fdI).1.is_approved = artI.is_approved ∧
    approve_article db0 reader30 artI false 4 = (artI, ApproveMsg.permissionDeniedRole) :=
  ⟨approve_one_way.1 db0 editor11 artP false 3 rfl (by decide),
   approve_one_way.2.1 db0 reader30 artI false 4 rfl,
   approve_one_way.2.2.1 journalist20 artI fdI,
   approve_one_way.2.2.2 db0 reader30 artI false 4 rfl (by decide)⟩

/-- C8: on a permitted approval the committed row is the same whatever
the notification hook does — the approval is persisted before the hook
fires and is never rolled back — and the caller always receives an
outcome: the success message when the hook's effect succeeds, a warning
when it fails (`send_tweet` converts any internal exception into `false`
rather than throwing). -/
theorem approve_commit_survives_hook :
    ∀ (db : DB) (user : CustomUser) (a : Article) (now : Nat),
      user.role = Role.editor → approve_denied db user a = false →
      ∀ hf : Bool,
        (approve_article db user a hf now).1 =
          { a with is_approved := true, approved_by := some user.uid,
                   approved_at := some now } ∧
        (hf = true →
          (approve_article db user a hf now).2 = ApproveMsg.approvedTweetFailed) ∧
        (hf = false →
          (approve_article db user a hf now).2 = ApproveMsg.approvedAndTweeted) := by
  intro db user a now hrole hden hf
  cases hf <;> simp [approve_article, hrole, hden, send_tweet]

/-- Witness for C8: editor 11 approving `artP` commits the same approved
row whether the tweet succeeds or fails, and gets the matching message. -/
theorem approve_commit_survives_hook_witness :
    ((approve_article db0 editor11 artP true 3).1 =
      { artP with is_approved := true, approved_by := some 11, approved_at := some 3 } ∧
     (approve_article db0 editor11 artP true 3).2 = ApproveMsg.approvedTweetFailed) ∧
    ((approve_article db0 editor11 artP false 3).1 =
      { artP with is_approved := true, approved_by := some 11, approved_at := some 3 } ∧
     (approve_article db0 editor11 artP false 3).2 = ApproveMsg.approvedAndTweeted) :=
  ⟨⟨(approve_commit_survives_hook db0 editor11 artP 3 rfl (by decide) true).1,
    (approve_commit_survives_hook db0 editor11 artP 3 rfl (by decide) true).2.1 rfl⟩,
   ⟨(approve_commit_survives_hook db0 editor11 artP 3 rfl (by decide) false).1,
    (approve_commit_survives_hook db0 editor11 artP 3 rfl (by decide) false).2.2 rfl⟩⟩

/-- C9: editing is permitted exactly when the requester is the article's
author or has role editor (a pure role check); a successful edit writes
only `title`, `content` and `publisher`, leaving `is_approved`,
`approved_by`, `approved_at` (and the author and id) unchanged; a denied
edit leaves the row untouched. -/
theorem edit_article_permission_frame :
    ∀ (user : CustomUser) (a : Article) (fd : ArticleFormData),
      ((edit_article user a fd).2 = EditMsg.updated ↔
        (user.uid = a.journalist ∨ user.role = Role.editor)) ∧
      (edit_article user a fd).1.is_approved = a.is_approved ∧
      (edit_article user a fd).1.approved_by = a.approved_by ∧
      (edit_article user a fd).1.approved_at = a.approved_at ∧
      (edit_article user a fd).1.journalist = a.journalist ∧
      (edit_article user a fd).1.aid = a.aid ∧
      ((edit_article user a fd).2 = EditMsg.updated →
        (edit_article user a fd).1 =
          { a with title := fd.title, content := fd.content, publisher := fd.publisher }) := by
  intro user a fd
  by_cases h : user.uid ≠ a.journalist ∧ user.role ≠ Role.editor
  · simp [edit_article, h]
  · simp [edit_article, h]
    tauto

/-- Witness for C9: editor 12, unrelated to `artP`'s publisher, may edit
it, and the edit leaves the approval fields as they were. -/
theorem edit_article_permission_frame_witness :
    (edit_article editor12 artP fdI).2 = EditMsg.updated ∧
    (edit_article editor12 artP fdI).1.is_approved = artP.is_approved ∧
    (edit_article editor12 artP fdI).1.approved_by = artP.approved_by :=
  ⟨(edit_article_permission_frame editor12 artP fdI).1.mpr (Or.inr rfl),
   (edit_article_permission_frame editor12 artP fdI).2.1,
   (edit_article_permission_frame editor12 artP fdI).2.2.1⟩

/-- C10: the publisher-membership guard only fires when the article has a
publisher — for an article with `publisher = none`, any user with role
editor executes the approval step (setting `is_approved` and
`approved_by` to themselves) with no membership restriction. -/
theorem approve_no_publisher_any_editor :
    ∀ (db : DB) (user : CustomUser) (a : Article) (hf : Bool) (now : Nat),
      user.role = Role.editor → a.publisher = none →
      (approve_article db user a hf now).1 =
        { a with is_approved := true, approved_by := some user.uid,
                 approved_at := some now } := by
  intro db user a hf now hrole hpub
  cases hf <;> simp [approve_article, hrole, approve_denied, hpub, send_tweet]

/-- Witness for C10: editor 12 has no tie to the independent article
`artI` (authored by journalist 20, no publisher) yet approves it. -/
theorem approve_no_publisher_any_editor_witness :
    (approve_article db0 editor12 artI false 9).1 =
      { artI with is_approved := true, approved_by := some 12, approved_at := some 9 } :=
  approve_no_publisher_any_editor db0 editor12 artI false 9 rfl rfl
